import Mathlib

/-!
Shallow embedding of the client-side order/delivery form logic of the
`appcolegio` repository, together with proofs of the specified properties.

Files embedded:
* `static/js/compras/crear-orden-refactored.js` — purchase-order line-item
  aggregation (`TotalesCalculator`, `APIClient`, `OrdenCompraController`,
  row builders, `DOMUtils.escapeHtml`).
* `static/js/bodega/entrega-bienes.js` — asset-delivery form (manual
  selection, per-row validation, submission).
* `bodega/entrega-articulos` (unnamed source part) — article-delivery form
  (stock/pending validation, submission).

Numeric values handled by the JavaScript (quantities, prices, discounts)
are modelled as rationals; DOM rows are modelled as lists in which a
removed row leaves a `none` slot, matching `document.getElementById`
returning `null` for a removed row while the row counters keep counting.
-/

namespace AppColegio

/-! ## TotalesCalculator (crear-orden-refactored.js, lines 170–254) -/

/-- `TotalesCalculator.calculateSubtotal(cantidad, precioUnitario, descuento)`:
`(cantidad * precioUnitario) - descuento`. -/
def calculateSubtotal (cantidad precioUnitario descuento : ℚ) : ℚ :=
  cantidad * precioUnitario - descuento

/-- One rendered line-item row of the purchase-order form: the current
values of its quantity, unit-price and discount inputs (`none` models an
empty input, whose `parseFloat` is `NaN`), the hidden reference-id input
(`none` models an empty value), and the `data-solicitud-id` attribute
(set only when the originating detail carried a truthy `solicitud_id`). -/
structure Fila where
  referenceId : Option ℕ
  cantidad : Option ℚ
  precio : Option ℚ
  descuento : Option ℚ
  solicitudId : Option ℕ
deriving Repr, DecidableEq

/-- Subtotal of one row, as `updateArticuloSubtotal` / `updateBienSubtotal`
compute it: `parseFloat(...) || 0` on each of the three inputs, then
`calculateSubtotal`. -/
def subtotalFila (f : Fila) : ℚ :=
  calculateSubtotal (f.cantidad.getD 0) (f.precio.getD 0) (f.descuento.getD 0)

/-- A table body: slot `i` holds the row with DOM id `fila_<tipo>_<i>`,
or `none` once that row has been removed from the DOM. The slot count
equals the controller's row counter (which is never decremented). -/
abbrev Tabla := List (Option Fila)

/-- `document.getElementById("fila_<tipo>_<i>")` on a table body. -/
def getFila (t : Tabla) (i : ℕ) : Option Fila :=
  match t[i]? with
  | some (some f) => some f
  | _ => none

/-- The per-kind summation loop of `TotalesCalculator.updateAllTotales`:
`for (i = 0; i < contador; i++) if (getElementById(fila_i)) total += subtotal(i)`.
The counter is the slot count of the table. -/
def sumTabla (t : Tabla) : ℚ :=
  (List.range t.length).foldl
    (fun acc i =>
      match getFila t i with
      | some f => acc + subtotalFila f
      | none => acc) 0

/-- Result record of `updateAllTotales`. -/
structure Totales where
  totalArticulos : ℚ
  totalBienes : ℚ
  totalGeneral : ℚ
deriving Repr, DecidableEq

/-- `TotalesCalculator.updateAllTotales(contadorArticulos, contadorBienes)`:
sums row subtotals per kind over the still-present rows and returns
`{ totalArticulos, totalBienes, totalGeneral }` with
`totalGeneral = totalArticulos + totalBienes`. -/
def updateAllTotales (articulos bienes : Tabla) : Totales :=
  let totalArticulos := sumTabla articulos
  let totalBienes := sumTabla bienes
  { totalArticulos := totalArticulos
    totalBienes := totalBienes
    totalGeneral := totalArticulos + totalBienes }

/-- Rows currently present in a table body, in display order. -/
def presentes (t : Tabla) : List Fila := t.filterMap id

/-! ### The summation loop computes the sum over present rows -/

/-- Contribution of slot `i` of a table to the summation loop. -/
def peso (t : Tabla) (i : ℕ) : ℚ :=
  match getFila t i with
  | some f => subtotalFila f
  | none => 0

/-! ## OrdenCompraController (crear-orden-refactored.js, lines 552–1000)

The controller's persistent state is `solicitudesSeleccionadas`, the two
row counters (here implicit as the slot counts of the two tables), the two
DOM table bodies, the toggle buttons' current action, and the two hidden
JSON fields written on submit. Presentation-only effects (empty-message
rows, section show/hide, alerts, `console.log`) carry no state read back
by any embedded operation and are not modelled. -/

/-- A `DetailRecord` as consumed by `procesarDetalles` and the row
builders. The display-only string fields (`codigo`, `nombre`,
`categoria`, `solicitud_numero`) feed `escapeHtml` into table cells and
are never read back; they are omitted. `none` models an absent field. -/
structure Detalle where
  tipo : String
  articulo_id : Option ℕ
  activo_id : Option ℕ
  cantidadAprobada : Option ℚ
  precioUnitario : Option ℚ
  solicitudId : Option ℕ
deriving Repr, DecidableEq

/-- Truthiness of an optional numeric field (`0`, `null` and `undefined`
are falsy in JavaScript). -/
def truthyNat : Option ℕ → Option ℕ
  | some n => if n = 0 then none else some n
  | none => none

/-- `InputBuilder.createCantidadInput`'s initial value:
`initialValue ? Math.floor(parseFloat(initialValue)) : ''`. -/
def cantidadInicial : Option ℚ → Option ℚ
  | some q => if q = 0 then none else some ((⌊q⌋ : ℤ) : ℚ)
  | none => none

/-- `InputBuilder.createPrecioInput`'s initial value: the builder is called
with `detalle.precio_unitario || '0'` and sets
`input.value = initialValue ? parseFloat(initialValue) : 0`. -/
def precioInicial (p : Option ℚ) : Option ℚ :=
  some (p.getD 0)

/-- `ArticuloRowBuilder.buildRow`: hidden id input from
`detalle.articulo_id`, quantity input seeded from
`detalle.cantidad_aprobada`, price input from `detalle.precio_unitario`,
discount input `'0'`, and the `data-solicitud-id` attribute set only when
`detalle.solicitud_id` is truthy. -/
def buildArticuloRow (d : Detalle) : Fila :=
  { referenceId := d.articulo_id
    cantidad := cantidadInicial d.cantidadAprobada
    precio := precioInicial d.precioUnitario
    descuento := some 0
    solicitudId := truthyNat d.solicitudId }

/-- `BienRowBuilder.buildRow`: identical to the article builder except the
hidden id comes from `detalle.activo_id`. -/
def buildBienRow (d : Detalle) : Fila :=
  { referenceId := d.activo_id
    cantidad := cantidadInicial d.cantidadAprobada
    precio := precioInicial d.precioUnitario
    descuento := some 0
    solicitudId := truthyNat d.solicitudId }

/-- The per-row delete control produced by
`InputBuilder.createEliminarButton`: it is never given a `disabled`
attribute and its `onclick` handler is always attached (it calls
`eliminarFila(index, tipo)`). Both row builders attach it to every row,
parent-sourced or not. -/
structure BotonEliminar where
  disabled : Bool
  hasOnClick : Bool
deriving Repr, DecidableEq

/-- `InputBuilder.createEliminarButton(index, tipo, onClickHandler)`. -/
def createEliminarButton : BotonEliminar :=
  { disabled := false, hasOnClick := true }

/-- One line-item datum collected by `DataCollector.collectArticuloData` /
`collectBienData` and serialized into the hidden JSON fields. -/
structure ItemData where
  refId : ℕ
  cantidad : ℤ
  precioUnitario : ℚ
  descuento : ℚ
deriving Repr, DecidableEq

/-- Full controller state. The two hidden JSON fields are modelled at the
data level (`JSON.stringify` is injective on the collected records);
`none` means the field has not been written yet. -/
structure OrdenState where
  articulos : Tabla
  bienes : Tabla
  solicitudesSeleccionadas : List ℕ
  botonesQuitar : List ℕ
  hiddenArticulos : Option (List ItemData)
  hiddenBienes : Option (List ItemData)
deriving Repr, DecidableEq

/-- State right after `new OrdenCompraController(...)`. -/
def estadoInicial : OrdenState :=
  { articulos := []
    bienes := []
    solicitudesSeleccionadas := []
    botonesQuitar := []
    hiddenArticulos := none
    hiddenBienes := none }

/-- `agregarArticuloSolicitud(detalle)`: builds a row at index
`contadorArticulos`, appends it to the article table body and increments
the counter (appending to the slot list does both at once). -/
def agregarArticuloSolicitud (st : OrdenState) (d : Detalle) : OrdenState :=
  { st with articulos := st.articulos ++ [some (buildArticuloRow d)] }

/-- `agregarBienSolicitud(detalle)`: same, on the asset table. -/
def agregarBienSolicitud (st : OrdenState) (d : Detalle) : OrdenState :=
  { st with bienes := st.bienes ++ [some (buildBienRow d)] }

/-- `procesarDetalles(detalles)`: routes each detail by
`detalle.tipo === 'articulo'`. -/
def procesarDetalles (st : OrdenState) (detalles : List Detalle) : OrdenState :=
  detalles.foldl
    (fun s d =>
      if d.tipo = "articulo" then agregarArticuloSolicitud s d
      else agregarBienSolicitud s d) st

/-- `eliminarFila(index, tipo)`: removes the row with DOM id
`fila_<tipo>_<index>` if it still exists (removing leaves a `none` slot;
`List.set` out of range or on an already-empty slot is the source's
`if (fila)` no-op). -/
def eliminarFila (st : OrdenState) (esArticulo : Bool) (i : ℕ) : OrdenState :=
  if esArticulo then { st with articulos := st.articulos.set i none }
  else { st with bienes := st.bienes.set i none }

/-- The shared body of `quitarArticulosDeSolicitud` /
`quitarBienesDeSolicitud`: remove every row whose `data-solicitud-id`
attribute equals the given id (rows without the attribute never match the
`tr[data-solicitud-id="..."]` selector). -/
def quitarFilasDeSolicitud (sid : ℕ) (t : Tabla) : Tabla :=
  t.map fun o =>
    match o with
    | some f => if f.solicitudId = some sid then none else some f
    | none => none

/-- `quitarArticulosDeSolicitud(solicitudId)`. -/
def quitarArticulosDeSolicitud (st : OrdenState) (sid : ℕ) : OrdenState :=
  { st with articulos := quitarFilasDeSolicitud sid st.articulos }

/-- `quitarBienesDeSolicitud(solicitudId)`. -/
def quitarBienesDeSolicitud (st : OrdenState) (sid : ℕ) : OrdenState :=
  { st with bienes := quitarFilasDeSolicitud sid st.bienes }

/-- `toggleBotonSolicitud(solicitudId, 'agregar')`: the row's button is put
into its "Quitar" state (idempotent attribute writes). -/
def toggleBotonAgregar (l : List ℕ) (sid : ℕ) : List ℕ :=
  if sid ∈ l then l else sid :: l

/-- `quitarSolicitud(solicitudId)`: `indexOf` + `splice` removes the first
occurrence from `solicitudesSeleccionadas`, then both per-kind removals
run, totals are recomputed, the hidden solicitud inputs are rebuilt from
the list, and the button returns to its "Agregar" state. -/
def quitarSolicitud (st : OrdenState) (sid : ℕ) : OrdenState :=
  let st := { st with solicitudesSeleccionadas :=
      st.solicitudesSeleccionadas.erase sid }
  let st := quitarArticulosDeSolicitud st sid
  let st := quitarBienesDeSolicitud st sid
  { st with botonesQuitar := st.botonesQuitar.erase sid }

/-- `agregarSolicitud(solicitudId)`, with the outcome of the awaited
detail fetch passed in explicitly (`Except.error` models a rejected fetch
or JSON decode). If the id is already selected the method returns early.
Otherwise the id is pushed first; `cargarArticulosDeSolicitudes` then
fetches and, on success, inserts every returned detail — its `catch`
only shows an alert — and in either case `actualizarCampoSolicitudes`
and `toggleBotonSolicitud(solicitudId, 'agregar')` still run. -/
def agregarSolicitud (st : OrdenState) (sid : ℕ)
    (fetchResult : Except Unit (List Detalle)) : OrdenState :=
  if sid ∈ st.solicitudesSeleccionadas then st
  else
    let st := { st with solicitudesSeleccionadas :=
        st.solicitudesSeleccionadas ++ [sid] }
    let st :=
      match fetchResult with
      | .ok detalles => procesarDetalles st detalles
      | .error _ => st
    { st with botonesQuitar := toggleBotonAgregar st.botonesQuitar sid }

/-! ### C1: totals over any add/remove history -/

/-- The store-mutating operations reachable from user actions. -/
inductive Op where
  | addArticulo (d : Detalle)
  | addBien (d : Detalle)
  | eliminar (esArticulo : Bool) (i : ℕ)
  | quitar (sid : ℕ)
  | agregar (sid : ℕ) (fetchResult : Except Unit (List Detalle))

def applyOp (st : OrdenState) : Op → OrdenState
  | .addArticulo d => agregarArticuloSolicitud st d
  | .addBien d => agregarBienSolicitud st d
  | .eliminar esArticulo i => eliminarFila st esArticulo i
  | .quitar sid => quitarSolicitud st sid
  | .agregar sid r => agregarSolicitud st sid r

def applyOps (ops : List Op) : OrdenState :=
  ops.foldl applyOp estadoInicial

/-! ## FormValidator, DataCollector and form submission
(crear-orden-refactored.js, lines 44–164 and 960–999) -/

/-- JavaScript `parseInt` applied to the decimal rendering of a number:
truncation toward zero. -/
def jsParseInt (q : ℚ) : ℤ :=
  if 0 ≤ q then ⌊q⌋ else ⌈q⌉

/-- `FormValidator.validateArticulo(index)`: the hidden id input must be
non-empty and the quantity input non-empty with `parseInt(value) > 0`. -/
def validateArticulo (f : Fila) : Bool :=
  f.referenceId.isSome &&
    (match f.cantidad with
     | some q => decide (0 < jsParseInt q)
     | none => false)

/-- `FormValidator.validateBien(index)`: the same checks on the asset
row's inputs (only the alert texts differ). -/
def validateBien (f : Fila) : Bool :=
  f.referenceId.isSome &&
    (match f.cantidad with
     | some q => decide (0 < jsParseInt q)
     | none => false)

/-- `DataCollector.collectArticuloData(index)`: `parseInt` on id and
quantity, `parseFloat(...) || 0` on price and discount. Only ever called
after `validateArticulo` succeeded, so the id and quantity are present. -/
def collectArticuloData (f : Fila) : ItemData :=
  { refId := f.referenceId.getD 0
    cantidad := jsParseInt (f.cantidad.getD 0)
    precioUnitario := f.precio.getD 0
    descuento := f.descuento.getD 0 }

/-- `DataCollector.collectBienData(index)`: same fields read from the
asset row (`activo_id` in place of `articulo_id`). -/
def collectBienData (f : Fila) : ItemData :=
  { refId := f.referenceId.getD 0
    cantidad := jsParseInt (f.cantidad.getD 0)
    precioUnitario := f.precio.getD 0
    descuento := f.descuento.getD 0 }

/-- `DataCollector.collectAllArticulos(contador)`: loop `i < contador`,
skip indices whose row no longer exists, throw on the first row failing
validation, otherwise push its collected data. -/
def collectAllArticulos : Tabla → Except Unit (List ItemData)
  | [] => .ok []
  | none :: rest => collectAllArticulos rest
  | some f :: rest =>
      if validateArticulo f then
        match collectAllArticulos rest with
        | .ok l => .ok (collectArticuloData f :: l)
        | .error e => .error e
      else .error ()

/-- `DataCollector.collectAllBienes(contador)`. -/
def collectAllBienes : Tabla → Except Unit (List ItemData)
  | [] => .ok []
  | none :: rest => collectAllBienes rest
  | some f :: rest =>
      if validateBien f then
        match collectAllBienes rest with
        | .ok l => .ok (collectBienData f :: l)
        | .error e => .error e
      else .error ()

/-- `saveToHiddenFields(articulos, bienes)`: writes both JSON arrays into
the hidden `articulosJson` / `bienesJson` fields. -/
def saveToHiddenFields (st : OrdenState) (arts biens : List ItemData) :
    OrdenState :=
  { st with hiddenArticulos := some arts, hiddenBienes := some biens }

/-- `handleFormSubmit(event)`: collect both kinds (the first validation
failure throws), write the hidden fields, and let native submission
proceed (`true`); on a validation error `event.preventDefault()` cancels
submission and the hidden fields are never written. -/
def handleFormSubmit (st : OrdenState) : OrdenState × Bool :=
  match collectAllArticulos st.articulos with
  | .error _ => (st, false)
  | .ok arts =>
      match collectAllBienes st.bienes with
      | .error _ => (st, false)
      | .ok biens => (saveToHiddenFields st arts biens, true)

/-! ## APIClient (crear-orden-refactored.js, lines 511–546) -/

/-- `APIClient.fetchDetallesSolicitudes(solicitudIds)`. The network is an
oracle mapping the ids carried by a `GET` to either a decoded JSON body
(whose `detalles` member may be absent, `data.detalles || []`) or a
network/decode failure, which the `catch` rethrows. The first component
of the result lists the network calls issued, each recorded as the id
list appended to the query string (`solicitudes[]`, in order). -/
def fetchDetallesSolicitudes (solicitudIds : List ℕ)
    (network : List ℕ → Except Unit (Option (List Detalle))) :
    List (List ℕ) × Except Unit (List Detalle) :=
  if solicitudIds.length = 0 then ([], .ok [])
  else
    match network solicitudIds with
    | .ok data => ([solicitudIds], .ok (data.getD []))
    | .error e => ([solicitudIds], .error e)

/-! ## bodega/entrega-bienes.js -/

namespace EntregaBienes

/-- An element of `bienesSeleccionados`. Manual selection fills `estado`
and leaves the quantities absent; loading from a solicitud fills the
quantities instead. -/
structure Bien where
  id : ℕ
  codigo : String
  nombre : String
  categoria : Option String
  estado : Option String
  cantidadSolicitada : Option ℚ
  cantidadPendiente : Option ℚ
deriving Repr, DecidableEq

/-- A rendered row of `tbody-bienes`: its `data-bien-id` and
`data-fila-id` attributes, the quantity input's `data-pendiente` and
`max` attributes and current value, the observations input, and the
delete button's `disabled` attribute and whether the delete click
handler was attached. -/
structure FilaBien where
  bienId : ℕ
  filaId : ℕ
  pendiente : ℚ
  maxAttr : ℚ
  cantidadValue : Option ℚ
  observaciones : Option String
  eliminarDisabled : Bool
  eliminarHandler : Bool
deriving Repr, DecidableEq

/-- Module state: the `bienesSeleccionados` array, the table rows, the
row counter and the `solicitudCargada` flag. -/
structure State where
  bienesSeleccionados : List Bien
  filas : List FilaBien
  contadorFilas : ℕ
  solicitudCargada : Bool
deriving Repr, DecidableEq

/-- The row built by `agregarFilaBien(bien, desdeSolicitud,
cantidadSugerida)`: `data-pendiente` is `bien.cantidadPendiente || 0`,
`max` is `bien.cantidadPendiente || 999`, the initial value is
`cantidadSugerida || ''`, and the delete button is disabled — and its
click handler not attached — exactly when the row comes from a
solicitud. -/
def mkFilaBien (bien : Bien) (desdeSolicitud : Bool)
    (cantidadSugerida : Option ℚ) (contadorFilas : ℕ) : FilaBien :=
  { bienId := bien.id
    filaId := contadorFilas
    pendiente := match bien.cantidadPendiente with
      | some p => if p = 0 then 0 else p
      | none => 0
    maxAttr := match bien.cantidadPendiente with
      | some p => if p = 0 then 999 else p
      | none => 999
    cantidadValue := match cantidadSugerida with
      | some q => if q = 0 then none else some q
      | none => none
    observaciones := none
    eliminarDisabled := desdeSolicitud
    eliminarHandler := !desdeSolicitud }

/-- `agregarFilaBien`: append the built row and bump `contadorFilas`. -/
def agregarFilaBien (st : State) (bien : Bien) (desdeSolicitud : Bool)
    (cantidadSugerida : Option ℚ) : State :=
  { st with
    filas := st.filas ++ [mkFilaBien bien desdeSolicitud cantidadSugerida
      st.contadorFilas]
    contadorFilas := st.contadorFilas + 1 }

/-- The `data-*` attributes of a modal row, read by `seleccionarBien`. -/
structure BienDataset where
  bienId : ℕ
  codigo : String
  nombre : String
  categoria : String
  estado : String
deriving Repr, DecidableEq

/-- `seleccionarBien(e)`: if some selected entry already has this id, show
a warning and return with nothing changed; otherwise push the new entry
and add a manual (deletable) row. -/
def seleccionarBien (st : State) (ds : BienDataset) : State :=
  if st.bienesSeleccionados.any (fun b => b.id = ds.bienId) then st
  else
    let bien : Bien :=
      { id := ds.bienId
        codigo := ds.codigo
        nombre := ds.nombre
        categoria := some ds.categoria
        estado := some ds.estado
        cantidadSolicitada := none
        cantidadPendiente := none }
    let st := { st with bienesSeleccionados := st.bienesSeleccionados ++ [bien] }
    agregarFilaBien st bien false none

/-- `eliminarFilaBien(e)`: drop the clicked row and filter its `bienId`
out of `bienesSeleccionados`. -/
def eliminarFilaBien (st : State) (filaId : ℕ) : State :=
  match st.filas.find? (fun f => f.filaId = filaId) with
  | some fila =>
      { st with
        bienesSeleccionados :=
          st.bienesSeleccionados.filter (fun b => !(b.id = fila.bienId))
        filas := st.filas.filter (fun f => !(f.filaId = filaId)) }
  | none => st

/-- A user click on a row's delete button: the browser fires the handler
only if the button is not disabled, and a handler runs only if one was
attached (`agregarFilaBien` attaches it only for manual rows). -/
def clickEliminar (st : State) (filaId : ℕ) : State :=
  match st.filas.find? (fun f => f.filaId = filaId) with
  | some fila =>
      if fila.eliminarHandler && !fila.eliminarDisabled then
        eliminarFilaBien st filaId
      else st
  | none => st

end EntregaBienes

/-! ## bodega/entrega-articulos (unnamed source part 000) -/

namespace EntregaArticulos

/-- A rendered row of `tbody-articulos`: the quantity input's
`data-stock`, `data-pendiente` and current value, plus the lot and
observations inputs (`none` models an empty input). -/
structure FilaArticulo where
  articuloId : ℕ
  cantidadValue : Option ℚ
  stock : ℚ
  pendiente : ℚ
  lote : Option String
  observaciones : Option String
deriving Repr, DecidableEq

/-- `validarCantidadEnTiempoReal(e)`: `parseFloat(value) || 0` against
`data-stock`, then against `data-pendiente` when positive; returns
whether the `is-invalid` class ends up set. -/
def validarCantidadEnTiempoReal (value : Option ℚ) (stock pendiente : ℚ) :
    Bool :=
  let cantidad := value.getD 0
  if cantidad > stock then true
  else if 0 < pendiente ∧ cantidad > pendiente then true
  else false

/-- The three per-row checks of `validarYEnviarFormulario`: the parsed
quantity must exist and be positive, not exceed `data-stock`, and not
exceed `data-pendiente` when that is positive. -/
def filaValida (f : FilaArticulo) : Bool :=
  match f.cantidadValue with
  | none => false
  | some q =>
      decide (0 < q) && decide (q ≤ f.stock) &&
        !(decide (0 < f.pendiente) && decide (f.pendiente < q))

/-- One element of the `detalles` array serialized into `detallesJson`. -/
structure DetalleEntrega where
  articulo_id : ℕ
  cantidad : ℚ
  lote : Option String
  observaciones : Option String
deriving Repr, DecidableEq

/-- `validarYEnviarFormulario(e)`: `e.preventDefault()` runs first, so
native submission never proceeds on its own. Every row is re-marked
(`is-invalid` added on any failing check, removed otherwise — the rows'
input values are never written). Valid rows contribute a detail record;
if any row fails, or no detail was collected, an alert is shown and
nothing is submitted; otherwise `detallesJson` is written and
`e.target.submit()` fires. Result: the rows with their final
`is-invalid` marks, and `some detalles` exactly when submission fired. -/
def validarYEnviarFormulario (filas : List FilaArticulo) :
    List (FilaArticulo × Bool) × Option (List DetalleEntrega) :=
  let marcadas := filas.map fun f => (f, !filaValida f)
  if filas.length = 0 then (marcadas, none)
  else
    let todasValidas := filas.all filaValida
    let detalles := (filas.filter filaValida).map fun f =>
      { articulo_id := f.articuloId
        cantidad := f.cantidadValue.getD 0
        lote := f.lote
        observaciones := f.observaciones : DetalleEntrega }
    if todasValidas then
      if detalles.length = 0 then (marcadas, none)
      else (marcadas, some detalles)
    else (marcadas, none)

end EntregaArticulos

/-! ## DOMUtils.escapeHtml (crear-orden-refactored.js, lines 22–30) -/

/-- A JavaScript value as passed to `escapeHtml`. Strings are lists of
characters; numbers keep only their decimal rendering's characters. -/
inductive JSVal where
  | jsNull
  | jsUndefined
  | str (s : List Char)
  | num (n : ℤ)
deriving Repr, DecidableEq

/-- JavaScript falsiness of such a value (`!text`). -/
def jsFalsy : JSVal → Bool
  | .jsNull => true
  | .jsUndefined => true
  | .str s => s.isEmpty
  | .num n => n = 0

/-- `String(text)` on such a value. -/
def jsToString : JSVal → List Char
  | .jsNull => "null".data
  | .jsUndefined => "undefined".data
  | .str s => s
  | .num n => (toString n).data

/-- The apostrophe and double-quote characters. -/
def aposChar : Char := Char.ofNat 39

def quotChar : Char := Char.ofNat 34

/-- `.replace(/x/g, rep)` for a single-character pattern: every
occurrence of the character is replaced. -/
def replaceAllChar (target : Char) (rep : List Char) : List Char → List Char
  | [] => []
  | c :: rest =>
      (if c = target then rep else [c]) ++ replaceAllChar target rep rest

def entAmp : List Char := ['&', 'a', 'm', 'p', ';']

def entLt : List Char := ['&', 'l', 't', ';']

def entGt : List Char := ['&', 'g', 't', ';']

def entQuot : List Char := ['&', 'q', 'u', 'o', 't', ';']

def entApos : List Char := ['&', '#', '0', '3', '9', ';']

/-- The replacement chain of `escapeHtml`: `&` first, then `<`, `>`,
the double quote, and the apostrophe. -/
def escapeChain (s : List Char) : List Char :=
  replaceAllChar aposChar entApos
    (replaceAllChar quotChar entQuot
      (replaceAllChar '>' entGt
        (replaceAllChar '<' entLt
          (replaceAllChar '&' entAmp s))))

/-- `DOMUtils.escapeHtml(text)`: empty string for falsy input, otherwise
the chain of five global replacements on `String(text)`. -/
def escapeHtml (v : JSVal) : List Char :=
  if jsFalsy v then [] else escapeChain (jsToString v)

/-- Per-character view of the chain (proved equal to it below): what one
character contributes to the escaped output. -/
def escChar (c : Char) : List Char :=
  if c = '&' then entAmp
  else if c = '<' then entLt
  else if c = '>' then entGt
  else if c = quotChar then entQuot
  else if c = aposChar then entApos
  else [c]

/-- Checker: every ampersand in the list is immediately followed by the
tail of one of the five emitted entities. -/
def ampOk : List Char → Bool
  | [] => true
  | c :: rest =>
      if c = '&' then
        (List.isPrefixOf entAmp.tail rest || List.isPrefixOf entLt.tail rest ||
          List.isPrefixOf entGt.tail rest ||
          List.isPrefixOf entQuot.tail rest ||
          List.isPrefixOf entApos.tail rest) && ampOk rest
      else ampOk rest

/-- Checker: the list contains none of the four raw characters that
`escapeHtml` must eliminate. -/
def noRawSpecials (l : List Char) : Bool :=
  l.all fun c =>
    !(c = '<' || c = '>' || c = quotChar || c = aposChar)

/-! ## Concrete fixtures

Explicit inputs on which the theorems below are evaluated. -/

/-- An article detail of request 1 carrying catalog reference 5. -/
def detalleRef5Sol1 : Detalle :=
  { tipo := "articulo", articulo_id := some 5, activo_id := none,
    cantidadAprobada := some 2, precioUnitario := some 10,
    solicitudId := some 1 }

/-- An article detail of request 2 carrying the same catalog reference 5. -/
def detalleRef5Sol2 : Detalle :=
  { tipo := "articulo", articulo_id := some 5, activo_id := none,
    cantidadAprobada := some 3, precioUnitario := some 7,
    solicitudId := some 2 }

/-- An already-selected asset entry with id 4. -/
def bien4 : EntregaBienes.Bien :=
  { id := 4, codigo := "C4", nombre := "N4", categoria := none,
    estado := none, cantidadSolicitada := none, cantidadPendiente := none }

/-- A delivery-form state with asset id 4 already selected. -/
def stBien4 : EntregaBienes.State :=
  { bienesSeleccionados := [bien4],
    filas := [], contadorFilas := 1, solicitudCargada := false }

/-- The article row held by `stRef5`. -/
def filaRef5 : Fila :=
  { referenceId := some 5, cantidad := some 2, precio := some 10,
    descuento := some 0, solicitudId := some 1 }

/-- Modal-row data for the same asset id 4. -/
def dsBien4 : EntregaBienes.BienDataset :=
  { bienId := 4, codigo := "C4", nombre := "N4", categoria := "X",
    estado := "ok" }

/-- A manually added article row (no `data-solicitud-id` attribute). -/
def filaManual10 : Fila :=
  { referenceId := some 10, cantidad := some 1, precio := some 5,
    descuento := some 0, solicitudId := none }

/-- An article row of request 1. -/
def filaSol1Ref11 : Fila :=
  { referenceId := some 11, cantidad := some 2, precio := some 6,
    descuento := some 0, solicitudId := some 1 }

/-- An article row of request 2. -/
def filaSol2Ref12 : Fila :=
  { referenceId := some 12, cantidad := some 3, precio := some 7,
    descuento := some 0, solicitudId := some 2 }

/-- An asset row of request 1. -/
def filaBienSol1 : Fila :=
  { referenceId := some 20, cantidad := some 1, precio := some 9,
    descuento := some 0, solicitudId := some 1 }

/-- An order state interleaving a manual article, an article of request 1,
a removed slot and an article of request 2, plus one asset of request 1. -/
def stInterleaved : OrdenState :=
  { articulos := [some filaManual10, some filaSol1Ref11, none,
      some filaSol2Ref12],
    bienes := [some filaBienSol1],
    solicitudesSeleccionadas := [1, 2], botonesQuitar := [1, 2],
    hiddenArticulos := none, hiddenBienes := none }

/-- An order state in which request 9 is already selected. -/
def stSol9 : OrdenState :=
  { estadoInicial with solicitudesSeleccionadas := [9] }

/-- An order state holding one article row with reference 5. -/
def stRef5 : OrdenState :=
  { estadoInicial with articulos := [some filaRef5] }

/-- A delivery-form article row whose entered quantity 15 exceeds its
ceiling of 10 (stock 10, no pending bound). -/
def filaQty15 : EntregaArticulos.FilaArticulo :=
  { articuloId := 1, cantidadValue := some 15, stock := 10, pendiente := 0,
    lote := none, observaciones := none }

/-- An order row passing both submission checks. -/
def filaOk : Fila :=
  { referenceId := some 3, cantidad := some 2, precio := some 4,
    descuento := some 1, solicitudId := none }

/-- An order row failing the quantity check (`parseInt` value 0). -/
def filaBad : Fila :=
  { referenceId := some 3, cantidad := some 0, precio := some 4,
    descuento := some 0, solicitudId := none }

/-- An order state whose rows all pass validation. -/
def stValido : OrdenState :=
  { estadoInicial with articulos := [some filaOk] }

/-- An order state with a failing asset row. -/
def stInvalido : OrdenState :=
  { estadoInicial with articulos := [some filaOk], bienes := [some filaBad] }

/-- A delivery-form state after loading asset 4 from a solicitud: its only
row is parent-sourced. -/
def stEntregaSol : EntregaBienes.State :=
  EntregaBienes.agregarFilaBien
    { bienesSeleccionados := [bien4], filas := [], contadorFilas := 0,
      solicitudCargada := true }
    bien4 true (some 3)

end AppColegio

/-! # Theorems -/

namespace AppColegio

/-! ## The summation loop of `updateAllTotales` computes the sum of
`subtotal` over the currently-present rows -/

theorem foldl_add_eq_sum (l : List ℕ) (h : ℕ → ℚ) (a : ℚ) :
    l.foldl (fun acc i => acc + h i) a = a + (l.map h).sum := by
  induction l generalizing a with
  | nil => simp
  | cons x xs ih => simp [ih, add_assoc]

theorem peso_succ (o : Option Fila) (rest : Tabla) (i : ℕ) :
    peso (o :: rest) (i + 1) = peso rest i := by
  simp [peso, getFila]

theorem sum_peso_range (t : Tabla) :
    ((List.range t.length).map (peso t)).sum =
      ((presentes t).map subtotalFila).sum := by
  induction t with
  | nil => simp [presentes]
  | cons o rest ih =>
    rw [List.length_cons, List.range_succ_eq_map, List.map_cons,
      List.map_map, List.sum_cons]
    have hm : (List.range rest.length).map (peso (o :: rest) ∘ Nat.succ) =
        (List.range rest.length).map (peso rest) :=
      List.map_congr_left fun i _ => peso_succ o rest i
    rw [hm, ih]
    cases o <;> simp [presentes, peso, getFila]

theorem sumTabla_eq_sum_presentes (t : Tabla) :
    sumTabla t = ((presentes t).map subtotalFila).sum := by
  unfold sumTabla
  rw [List.foldl_ext _ (fun acc i => acc + peso t i) 0
      (fun a i _ => by unfold peso; cases h : getFila t i <;> simp [h])]
  rw [foldl_add_eq_sum, zero_add, sum_peso_range]

/-! ## Removal by parent request -/

theorem presentes_quitarFilas (sid : ℕ) (t : Tabla) :
    presentes (quitarFilasDeSolicitud sid t) =
      (presentes t).filter (fun f => !(f.solicitudId = some sid)) := by
  induction t with
  | nil => rfl
  | cons o rest ih =>
    cases o with
    | none => simpa [presentes, quitarFilasDeSolicitud] using ih
    | some f =>
      by_cases h : f.solicitudId = some sid <;>
        simpa [presentes, quitarFilasDeSolicitud, h] using ih

theorem getFila_quitarFilas_ne (sid : ℕ) (t : Tabla) (i : ℕ) (f : Fila)
    (hf : getFila t i = some f) (hs : f.solicitudId ≠ some sid) :
    getFila (quitarFilasDeSolicitud sid t) i = some f := by
  unfold getFila at hf ⊢
  unfold quitarFilasDeSolicitud
  rw [List.getElem?_map]
  cases ht : t[i]? with
  | none => rw [ht] at hf; exact absurd hf (by simp)
  | some o =>
    rw [ht] at hf
    cases o with
    | none => exact absurd hf (by simp)
    | some g =>
      simp only at hf
      cases hf
      simp [hs]

theorem getFila_quitarFilas_eq (sid : ℕ) (t : Tabla) (i : ℕ) (f : Fila)
    (hf : getFila t i = some f) (hs : f.solicitudId = some sid) :
    getFila (quitarFilasDeSolicitud sid t) i = none := by
  unfold getFila at hf ⊢
  unfold quitarFilasDeSolicitud
  rw [List.getElem?_map]
  cases ht : t[i]? with
  | none => rw [ht] at hf; exact absurd hf (by simp)
  | some o =>
    rw [ht] at hf
    cases o with
    | none => exact absurd hf (by simp)
    | some g =>
      simp only at hf
      cases hf
      simp [hs]

end AppColegio

/-- C1: after any sequence of add and remove operations,
`updateAllTotales` returns per-kind totals equal to the sum of
`calculateSubtotal` over exactly the currently-present rows of each kind,
and a grand total equal to the sum of the two per-kind totals. -/
theorem C1_totales_correctos (ops : List AppColegio.Op) :
    AppColegio.updateAllTotales (AppColegio.applyOps ops).articulos
        (AppColegio.applyOps ops).bienes =
      { totalArticulos :=
          ((AppColegio.presentes (AppColegio.applyOps ops).articulos).map
            AppColegio.subtotalFila).sum
        totalBienes :=
          ((AppColegio.presentes (AppColegio.applyOps ops).bienes).map
            AppColegio.subtotalFila).sum
        totalGeneral :=
          ((AppColegio.presentes (AppColegio.applyOps ops).articulos).map
            AppColegio.subtotalFila).sum +
          ((AppColegio.presentes (AppColegio.applyOps ops).bienes).map
            AppColegio.subtotalFila).sum } := by
  unfold AppColegio.updateAllTotales
  rw [AppColegio.sumTabla_eq_sum_presentes, AppColegio.sumTabla_eq_sum_presentes]

/-- C2: `calculateSubtotal` returns exactly `q*p - d` for every input, with
no clamping to zero: at `q = 1, p = 1, d = 2` the discount exceeds the gross
value and the subtotal is negative. -/
theorem C2_subtotal_no_clamp :
    (∀ q p d : ℚ, AppColegio.calculateSubtotal q p d = q * p - d) ∧
    (2:ℚ) > 1 * 1 ∧ AppColegio.calculateSubtotal 1 1 2 < 0 := by
  refine ⟨fun q p d => rfl, by norm_num, ?_⟩
  show (1:ℚ) * 1 - 2 < 0
  norm_num

/-- C3 counterexample: in the bulk insertion from fetched parent-request
details there is no per-item duplicate check. Starting from the empty
store, selecting request 1 inserts an article with `referenceId` 5;
selecting request 2, whose detail fetch returns another article detail
with the same `referenceId` 5 and the same kind, inserts a second row
instead of failing: the store ends with two rows carrying `referenceId`
5, so the add neither failed nor left the store unchanged. -/
theorem C3_counterexample_duplicado_bulk :
    (AppColegio.presentes
        (AppColegio.agregarSolicitud
          (AppColegio.agregarSolicitud AppColegio.estadoInicial 1
            (.ok [AppColegio.detalleRef5Sol1])) 2
          (.ok [AppColegio.detalleRef5Sol2])).articulos).countP
      (fun f => f.referenceId = some 5) = 2 := by
  decide

/-- C3 (amended): in the manual-selection flow (`seleccionarBien`), adding
an item whose id matches an already-present item is rejected with a
warning and leaves the whole module state unchanged. In the bulk
insertion, only an already-selected parent-request id is rejected
(`agregarSolicitud` returns early, state unchanged); a fetched article
detail is appended as a new row even when a present row already carries
the same `referenceId` and kind. -/
theorem C3_duplicados :
    (∀ (st : AppColegio.EntregaBienes.State)
        (ds : AppColegio.EntregaBienes.BienDataset),
      (∃ b ∈ st.bienesSeleccionados, b.id = ds.bienId) →
      AppColegio.EntregaBienes.seleccionarBien st ds = st) ∧
    (∀ (st : AppColegio.OrdenState) (sid : ℕ)
        (r : Except Unit (List AppColegio.Detalle)),
      sid ∈ st.solicitudesSeleccionadas →
      AppColegio.agregarSolicitud st sid r = st) ∧
    (∀ (st : AppColegio.OrdenState) (d : AppColegio.Detalle),
      d.tipo = "articulo" →
      (∃ f ∈ AppColegio.presentes st.articulos,
        f.referenceId = d.articulo_id) →
      (AppColegio.procesarDetalles st [d]).articulos =
        st.articulos ++ [some (AppColegio.buildArticuloRow d)]) := by
  refine ⟨?_, ?_, ?_⟩
  · rintro st ds ⟨b, hb, hid⟩
    have hany : (st.bienesSeleccionados.any fun x => x.id = ds.bienId) =
        true := List.any_eq_true.mpr ⟨b, hb, by simp [hid]⟩
    simp only [AppColegio.EntregaBienes.seleccionarBien, hany, if_true]
  · intro st sid r h
    simp only [AppColegio.agregarSolicitud, if_pos h]
  · intro st d htipo _
    simp [AppColegio.procesarDetalles, htipo,
      AppColegio.agregarArticuloSolicitud]

/-- C3 witness: the amended theorem applied at concrete inputs — a
duplicate manual selection of id 4 leaves the delivery-form state
unchanged, re-adding the already-selected request 9 leaves the order
state unchanged, and a bulk detail duplicating `referenceId` 5 is
appended anyway. -/
theorem C3_duplicados_witness :
    AppColegio.EntregaBienes.seleccionarBien AppColegio.stBien4
        AppColegio.dsBien4 = AppColegio.stBien4 ∧
    AppColegio.agregarSolicitud AppColegio.stSol9 9 (.error ()) =
      AppColegio.stSol9 ∧
    (AppColegio.procesarDetalles AppColegio.stRef5
        [AppColegio.detalleRef5Sol2]).articulos =
      AppColegio.stRef5.articulos ++
        [some (AppColegio.buildArticuloRow AppColegio.detalleRef5Sol2)] := by
  refine ⟨?_, ?_, ?_⟩
  · exact C3_duplicados.1 AppColegio.stBien4 AppColegio.dsBien4
      ⟨AppColegio.bien4, by simp [AppColegio.stBien4], by decide⟩
  · exact C3_duplicados.2.1 AppColegio.stSol9 9 _ (by decide)
  · exact C3_duplicados.2.2 AppColegio.stRef5 AppColegio.detalleRef5Sol2 rfl
      ⟨AppColegio.filaRef5, by simp [AppColegio.stRef5, AppColegio.presentes,
        AppColegio.estadoInicial], by decide⟩

/-- C4: `quitarArticulosDeSolicitud` / `quitarBienesDeSolicitud` remove
exactly the rows whose `data-solicitud-id` matches the given id: the
remaining present rows of the affected table are precisely the
non-matching ones in their original order, the other table is untouched,
every non-matching row is still found unchanged at its index, and every
matching row is gone. -/
theorem C4_removeByParent (st : AppColegio.OrdenState) (sid : ℕ) :
    (AppColegio.presentes
        (AppColegio.quitarArticulosDeSolicitud st sid).articulos =
      (AppColegio.presentes st.articulos).filter
        (fun f => !(f.solicitudId = some sid))) ∧
    (AppColegio.quitarArticulosDeSolicitud st sid).bienes = st.bienes ∧
    (AppColegio.presentes
        (AppColegio.quitarBienesDeSolicitud st sid).bienes =
      (AppColegio.presentes st.bienes).filter
        (fun f => !(f.solicitudId = some sid))) ∧
    (AppColegio.quitarBienesDeSolicitud st sid).articulos = st.articulos ∧
    (∀ i f, AppColegio.getFila st.articulos i = some f →
      f.solicitudId ≠ some sid →
      AppColegio.getFila
        (AppColegio.quitarArticulosDeSolicitud st sid).articulos i = some f) ∧
    (∀ i f, AppColegio.getFila st.articulos i = some f →
      f.solicitudId = some sid →
      AppColegio.getFila
        (AppColegio.quitarArticulosDeSolicitud st sid).articulos i = none) ∧
    (∀ i f, AppColegio.getFila st.bienes i = some f →
      f.solicitudId ≠ some sid →
      AppColegio.getFila
        (AppColegio.quitarBienesDeSolicitud st sid).bienes i = some f) ∧
    (∀ i f, AppColegio.getFila st.bienes i = some f →
      f.solicitudId = some sid →
      AppColegio.getFila
        (AppColegio.quitarBienesDeSolicitud st sid).bienes i = none) := by
  refine ⟨AppColegio.presentes_quitarFilas sid st.articulos, rfl,
    AppColegio.presentes_quitarFilas sid st.bienes, rfl,
    fun i f hf hs =>
      AppColegio.getFila_quitarFilas_ne sid st.articulos i f hf hs,
    fun i f hf hs =>
      AppColegio.getFila_quitarFilas_eq sid st.articulos i f hf hs,
    fun i f hf hs =>
      AppColegio.getFila_quitarFilas_ne sid st.bienes i f hf hs,
    fun i f hf hs =>
      AppColegio.getFila_quitarFilas_eq sid st.bienes i f hf hs⟩

/-- C4 witness: on the interleaved fixture, removing request 1 keeps the
manual row at index 0 and the request-2 row, and drops exactly the
request-1 rows (index 1 of the articles and the only asset). -/
theorem C4_removeByParent_witness :
    AppColegio.presentes
        (AppColegio.quitarArticulosDeSolicitud AppColegio.stInterleaved
          1).articulos =
      [AppColegio.filaManual10, AppColegio.filaSol2Ref12] ∧
    AppColegio.getFila
        (AppColegio.quitarArticulosDeSolicitud AppColegio.stInterleaved
          1).articulos 0 = some AppColegio.filaManual10 ∧
    AppColegio.getFila
        (AppColegio.quitarArticulosDeSolicitud AppColegio.stInterleaved
          1).articulos 1 = none ∧
    AppColegio.presentes
        (AppColegio.quitarBienesDeSolicitud AppColegio.stInterleaved
          1).bienes = [] := by
  refine ⟨?_, ?_, ?_, ?_⟩
  · rw [(C4_removeByParent AppColegio.stInterleaved 1).1]; decide
  · exact (C4_removeByParent AppColegio.stInterleaved 1).2.2.2.2.1 0
      AppColegio.filaManual10 (by decide) (by decide)
  · exact (C4_removeByParent AppColegio.stInterleaved 1).2.2.2.2.2.1 1
      AppColegio.filaSol1Ref11 (by decide) (by decide)
  · rw [(C4_removeByParent AppColegio.stInterleaved 1).2.2.1]; decide

/-- C5 counterexample: toggling parent request 7 when the detail fetch
fails does not return the toggle to `NotSelected`: the id is still in
`solicitudesSeleccionadas` and the button has been switched to its
"Quitar" (selected) state. -/
theorem C5_counterexample_toggle_fallo :
    7 ∈ (AppColegio.agregarSolicitud AppColegio.estadoInicial 7
        (.error ())).solicitudesSeleccionadas ∧
    7 ∈ (AppColegio.agregarSolicitud AppColegio.estadoInicial 7
        (.error ())).botonesQuitar := by
  decide

/-- C5 (amended): when the detail fetch fails during a toggle of a
not-yet-selected parent request, the line-item store and the hidden JSON
fields are left unchanged (the alert is the only visible effect of the
failure), but the toggle ends in the `Selected` state: the parent id has
been added to the selected set and the button switched to its "Quitar"
state. -/
theorem C5_fetch_failure (st : AppColegio.OrdenState) (sid : ℕ)
    (h : sid ∉ st.solicitudesSeleccionadas) :
    ((AppColegio.agregarSolicitud st sid (.error ())).articulos =
      st.articulos) ∧
    ((AppColegio.agregarSolicitud st sid (.error ())).bienes = st.bienes) ∧
    ((AppColegio.agregarSolicitud st sid (.error ())).hiddenArticulos =
      st.hiddenArticulos) ∧
    ((AppColegio.agregarSolicitud st sid (.error ())).hiddenBienes =
      st.hiddenBienes) ∧
    sid ∈ (AppColegio.agregarSolicitud st sid
      (.error ())).solicitudesSeleccionadas ∧
    sid ∈ (AppColegio.agregarSolicitud st sid (.error ())).botonesQuitar := by
  unfold AppColegio.agregarSolicitud
  rw [if_neg h]
  refine ⟨rfl, rfl, rfl, rfl, by simp, ?_⟩
  unfold AppColegio.toggleBotonAgregar
  by_cases hb : sid ∈ st.botonesQuitar
  · simp only [if_pos hb]; exact hb
  · simp [hb]

/-- C5 witness: the amended theorem at the empty initial state and
request id 7. -/
theorem C5_fetch_failure_witness :
    (7 ∉ AppColegio.estadoInicial.solicitudesSeleccionadas) ∧
    ((AppColegio.agregarSolicitud AppColegio.estadoInicial 7
        (.error ())).articulos = AppColegio.estadoInicial.articulos ∧
      7 ∈ (AppColegio.agregarSolicitud AppColegio.estadoInicial 7
        (.error ())).botonesQuitar) :=
  ⟨by decide,
    (C5_fetch_failure AppColegio.estadoInicial 7 (by decide)).1,
    (C5_fetch_failure AppColegio.estadoInicial 7 (by decide)).2.2.2.2.2⟩

/-- C6: in the article-delivery form, a row whose entered quantity exceeds
its ceiling (the pending quantity when positive and the stock otherwise,
both checked) is marked `is-invalid` by the real-time validation and by
the submission run; submission is blocked (`e.target.submit()` never
fires), and the run leaves every row's data unchanged. -/
theorem C6_validacion_cantidad
    (filas : List AppColegio.EntregaArticulos.FilaArticulo)
    (f : AppColegio.EntregaArticulos.FilaArticulo) (q : ℚ)
    (hmem : f ∈ filas) (hval : f.cantidadValue = some q)
    (hq : q > (if 0 < f.pendiente then min f.stock f.pendiente
      else f.stock)) :
    AppColegio.EntregaArticulos.validarCantidadEnTiempoReal f.cantidadValue
        f.stock f.pendiente = true ∧
    (f, true) ∈ (AppColegio.EntregaArticulos.validarYEnviarFormulario
      filas).1 ∧
    (AppColegio.EntregaArticulos.validarYEnviarFormulario filas).1.map
        Prod.fst = filas ∧
    (AppColegio.EntregaArticulos.validarYEnviarFormulario filas).2 =
      none := by
  have hcase : f.stock < q ∨ (0 < f.pendiente ∧ f.pendiente < q) := by
    by_cases hp : 0 < f.pendiente
    · rw [if_pos hp] at hq
      rcases min_lt_iff.mp hq with h | h
      · exact .inl h
      · exact .inr ⟨hp, h⟩
    · rw [if_neg hp] at hq
      exact .inl hq
  have hrt : AppColegio.EntregaArticulos.validarCantidadEnTiempoReal
      f.cantidadValue f.stock f.pendiente = true := by
    rcases hcase with h | ⟨h1, h2⟩
    · simp [AppColegio.EntregaArticulos.validarCantidadEnTiempoReal, hval, h]
    · by_cases hs : f.stock < q <;>
        simp [AppColegio.EntregaArticulos.validarCantidadEnTiempoReal, hval,
          hs, h1, h2]
  have hnv : AppColegio.EntregaArticulos.filaValida f = false := by
    rcases hcase with h | ⟨h1, h2⟩
    · simp [AppColegio.EntregaArticulos.filaValida, hval, not_le.mpr h]
    · simp [AppColegio.EntregaArticulos.filaValida, hval, h1, h2]
  have hlen : ¬(filas.length = 0) := by
    cases filas with
    | nil => cases hmem
    | cons a l => simp
  have hall : filas.all AppColegio.EntregaArticulos.filaValida = false := by
    rcases Bool.eq_false_or_eq_true
      (filas.all AppColegio.EntregaArticulos.filaValida) with h | h
    · have := List.all_eq_true.mp h f hmem
      rw [hnv] at this
      cases this
    · exact h
  refine ⟨hrt, ?_, ?_, ?_⟩
  · simp only [AppColegio.EntregaArticulos.validarYEnviarFormulario,
      if_neg hlen, hall]
    exact List.mem_map.mpr ⟨f, hmem, by rw [hnv]; rfl⟩
  · simp only [AppColegio.EntregaArticulos.validarYEnviarFormulario,
      if_neg hlen, hall, Bool.false_eq_true, if_false]
    rw [List.map_map,
      show (Prod.fst ∘ fun g => (g,
        !AppColegio.EntregaArticulos.filaValida g)) = id from rfl,
      List.map_id]
  · simp only [AppColegio.EntregaArticulos.validarYEnviarFormulario,
      if_neg hlen, hall]
    simp

/-- C6 witness: the spec scenario — a single row with entered quantity 15
against a ceiling of 10 is marked invalid, submission is blocked and the
row data is unchanged. -/
theorem C6_validacion_cantidad_witness :
    AppColegio.filaQty15 ∈ [AppColegio.filaQty15] ∧
    AppColegio.EntregaArticulos.validarCantidadEnTiempoReal
        AppColegio.filaQty15.cantidadValue AppColegio.filaQty15.stock
        AppColegio.filaQty15.pendiente = true ∧
    (AppColegio.EntregaArticulos.validarYEnviarFormulario
        [AppColegio.filaQty15]).1.map Prod.fst = [AppColegio.filaQty15] ∧
    (AppColegio.EntregaArticulos.validarYEnviarFormulario
        [AppColegio.filaQty15]).2 = none := by
  have h := C6_validacion_cantidad [AppColegio.filaQty15]
    AppColegio.filaQty15 15 (by simp) (by decide) (by decide)
  exact ⟨by simp, h.1, h.2.2.1, h.2.2.2⟩

/-- C7: `fetchDetallesSolicitudes` called with an empty id set returns an
empty sequence with no network call issued; for every non-empty id set it
issues exactly one call carrying all the ids. -/
theorem C7_fetchDetalles (solicitudIds : List ℕ)
    (network : List ℕ → Except Unit (Option (List AppColegio.Detalle))) :
    (solicitudIds = [] →
      AppColegio.fetchDetallesSolicitudes solicitudIds network =
        ([], .ok [])) ∧
    (solicitudIds ≠ [] →
      (AppColegio.fetchDetallesSolicitudes solicitudIds network).1 =
        [solicitudIds]) := by
  constructor
  · intro h
    subst h
    rfl
  · intro h
    have hlen : ¬(solicitudIds.length = 0) := by
      simpa [List.length_eq_zero] using h
    unfold AppColegio.fetchDetallesSolicitudes
    rw [if_neg hlen]
    cases network solicitudIds <;> rfl

/-- C7 witness: the theorem applied at the empty id set and at the
two-element set `[2, 3]` with a trivial network oracle. -/
theorem C7_fetchDetalles_witness :
    (AppColegio.fetchDetallesSolicitudes []
        (fun _ => .ok none) = ([], .ok []) ∧
      ([2, 3] ≠ ([] : List ℕ))) ∧
    (AppColegio.fetchDetallesSolicitudes [2, 3]
        (fun _ => .ok none)).1 = [[2, 3]] :=
  ⟨⟨(C7_fetchDetalles [] (fun _ => .ok none)).1 rfl, by decide⟩,
    (C7_fetchDetalles [2, 3] (fun _ => .ok none)).2 (by decide)⟩

/-- When every present article row validates, `collectAllArticulos`
returns exactly their collected data, in order. -/
theorem collectAllArticulos_ok (t : AppColegio.Tabla)
    (h : ∀ f ∈ AppColegio.presentes t, AppColegio.validateArticulo f = true) :
    AppColegio.collectAllArticulos t =
      .ok ((AppColegio.presentes t).map AppColegio.collectArticuloData) := by
  induction t with
  | nil => rfl
  | cons o rest ih =>
    cases o with
    | none =>
      have hrest : ∀ f ∈ AppColegio.presentes rest,
          AppColegio.validateArticulo f = true := by
        intro g hg
        exact h g (by simpa [AppColegio.presentes] using hg)
      simpa [AppColegio.collectAllArticulos, AppColegio.presentes]
        using ih hrest
    | some f =>
      have hf : AppColegio.validateArticulo f = true :=
        h f (by simp [AppColegio.presentes])
      have hrest : ∀ g ∈ AppColegio.presentes rest,
          AppColegio.validateArticulo g = true := by
        intro g hg
        exact h g (by simp [AppColegio.presentes] at hg ⊢; exact .inr hg)
      simp [AppColegio.collectAllArticulos, hf, ih hrest,
        AppColegio.presentes]

/-- When some present article row fails validation,
`collectAllArticulos` throws. -/
theorem collectAllArticulos_err (t : AppColegio.Tabla)
    (h : ∃ f ∈ AppColegio.presentes t,
      AppColegio.validateArticulo f = false) :
    AppColegio.collectAllArticulos t = .error () := by
  induction t with
  | nil => simp [AppColegio.presentes] at h
  | cons o rest ih =>
    cases o with
    | none =>
      have hrest : ∃ f ∈ AppColegio.presentes rest,
          AppColegio.validateArticulo f = false := by
        simpa [AppColegio.presentes] using h
      simpa [AppColegio.collectAllArticulos] using ih hrest
    | some f =>
      by_cases hf : AppColegio.validateArticulo f = true
      · rcases h with ⟨g, hg, hgf⟩
        have hcase : g = f ∨ g ∈ AppColegio.presentes rest := by
          simpa [AppColegio.presentes] using hg
        rcases hcase with rfl | h2
        · rw [hf] at hgf; cases hgf
        · simp [AppColegio.collectAllArticulos, hf, ih ⟨g, h2, hgf⟩]
      · rw [Bool.not_eq_true] at hf
        simp [AppColegio.collectAllArticulos, hf]

/-- When every present asset row validates, `collectAllBienes` returns
exactly their collected data, in order. -/
theorem collectAllBienes_ok (t : AppColegio.Tabla)
    (h : ∀ f ∈ AppColegio.presentes t, AppColegio.validateBien f = true) :
    AppColegio.collectAllBienes t =
      .ok ((AppColegio.presentes t).map AppColegio.collectBienData) := by
  induction t with
  | nil => rfl
  | cons o rest ih =>
    cases o with
    | none =>
      have hrest : ∀ f ∈ AppColegio.presentes rest,
          AppColegio.validateBien f = true := by
        intro g hg
        exact h g (by simpa [AppColegio.presentes] using hg)
      simpa [AppColegio.collectAllBienes, AppColegio.presentes]
        using ih hrest
    | some f =>
      have hf : AppColegio.validateBien f = true :=
        h f (by simp [AppColegio.presentes])
      have hrest : ∀ g ∈ AppColegio.presentes rest,
          AppColegio.validateBien g = true := by
        intro g hg
        exact h g (by simp [AppColegio.presentes] at hg ⊢; exact .inr hg)
      simp [AppColegio.collectAllBienes, hf, ih hrest, AppColegio.presentes]

/-- When some present asset row fails validation, `collectAllBienes`
throws. -/
theorem collectAllBienes_err (t : AppColegio.Tabla)
    (h : ∃ f ∈ AppColegio.presentes t, AppColegio.validateBien f = false) :
    AppColegio.collectAllBienes t = .error () := by
  induction t with
  | nil => simp [AppColegio.presentes] at h
  | cons o rest ih =>
    cases o with
    | none =>
      have hrest : ∃ f ∈ AppColegio.presentes rest,
          AppColegio.validateBien f = false := by
        simpa [AppColegio.presentes] using h
      simpa [AppColegio.collectAllBienes] using ih hrest
    | some f =>
      by_cases hf : AppColegio.validateBien f = true
      · rcases h with ⟨g, hg, hgf⟩
        have hcase : g = f ∨ g ∈ AppColegio.presentes rest := by
          simpa [AppColegio.presentes] using hg
        rcases hcase with rfl | h2
        · rw [hf] at hgf; cases hgf
        · simp [AppColegio.collectAllBienes, hf, ih ⟨g, h2, hgf⟩]
      · rw [Bool.not_eq_true] at hf
        simp [AppColegio.collectAllBienes, hf]

/-- C8: on submit, when every present row passes validation the two hidden
JSON fields are written with the per-kind serializations of the current
item lists and native submission proceeds; when any row fails validation,
submission is cancelled via prevented default and the state (hidden
fields included) is unchanged. -/
theorem C8_submit (st : AppColegio.OrdenState) :
    ((∀ f ∈ AppColegio.presentes st.articulos,
        AppColegio.validateArticulo f = true) →
      (∀ f ∈ AppColegio.presentes st.bienes,
        AppColegio.validateBien f = true) →
      AppColegio.handleFormSubmit st =
        (AppColegio.saveToHiddenFields st
          ((AppColegio.presentes st.articulos).map
            AppColegio.collectArticuloData)
          ((AppColegio.presentes st.bienes).map AppColegio.collectBienData),
          true)) ∧
    (((∃ f ∈ AppColegio.presentes st.articulos,
        AppColegio.validateArticulo f = false) ∨
      (∃ f ∈ AppColegio.presentes st.bienes,
        AppColegio.validateBien f = false)) →
      AppColegio.handleFormSubmit st = (st, false)) := by
  constructor
  · intro hA hB
    simp [AppColegio.handleFormSubmit, collectAllArticulos_ok st.articulos hA,
      collectAllBienes_ok st.bienes hB]
  · intro h
    rcases h with hA | hB
    · simp [AppColegio.handleFormSubmit,
        collectAllArticulos_err st.articulos hA]
    · cases hres : AppColegio.collectAllArticulos st.articulos with
      | error e =>
        simp [AppColegio.handleFormSubmit, hres]
      | ok arts =>
        simp [AppColegio.handleFormSubmit, hres,
          collectAllBienes_err st.bienes hB]

/-- C8 witness: the theorem applied at a fully valid one-row state (the
hidden fields receive the serialized row and submission proceeds) and at
a state with one failing asset row (submission prevented, state
unchanged). -/
theorem C8_submit_witness :
    AppColegio.handleFormSubmit AppColegio.stValido =
      (AppColegio.saveToHiddenFields AppColegio.stValido
        [AppColegio.collectArticuloData AppColegio.filaOk] [], true) ∧
    AppColegio.handleFormSubmit AppColegio.stInvalido =
      (AppColegio.stInvalido, false) := by
  constructor
  · have h := (C8_submit AppColegio.stValido).1 (by decide) (by decide)
    rw [h]
    rfl
  · exact (C8_submit AppColegio.stInvalido).2
      (.inr ⟨AppColegio.filaBad, by decide, by decide⟩)

/-- C9 counterexample: in the order-creation flow a parent-sourced item
can be removed individually. After selecting request 1, the only article
row carries `data-solicitud-id` 1; its per-row delete control — the one
`createEliminarButton` gives every row — is not disabled and has an
active click handler, and invoking that handler (`eliminarFila`) removes
the row from the store. -/
theorem C9_counterexample_eliminar_parent :
    AppColegio.createEliminarButton.disabled = false ∧
    AppColegio.createEliminarButton.hasOnClick = true ∧
    AppColegio.getFila (AppColegio.agregarSolicitud AppColegio.estadoInicial
        1 (.ok [AppColegio.detalleRef5Sol1])).articulos 0 =
      some (AppColegio.buildArticuloRow AppColegio.detalleRef5Sol1) ∧
    (AppColegio.buildArticuloRow AppColegio.detalleRef5Sol1).solicitudId =
      some 1 ∧
    AppColegio.presentes (AppColegio.eliminarFila
        (AppColegio.agregarSolicitud AppColegio.estadoInicial 1
          (.ok [AppColegio.detalleRef5Sol1])) true 0).articulos = [] := by
  decide

/-- C9 (amended): in the delivery flows, a parent-sourced row's delete
button is rendered disabled and its click handler is never attached, so a
user click on it leaves the state unchanged — such items leave the store
only with their whole solicitud. In the order-creation flow, by contrast,
every row's delete button is enabled with an active handler, and invoking
it removes that row individually, parent-sourced or not. -/
theorem C9_eliminar_parent :
    (∀ (bien : AppColegio.EntregaBienes.Bien) (sug : Option ℚ) (c : ℕ),
      (AppColegio.EntregaBienes.mkFilaBien bien true sug c).eliminarDisabled =
        true ∧
      (AppColegio.EntregaBienes.mkFilaBien bien true sug c).eliminarHandler =
        false) ∧
    (∀ (st : AppColegio.EntregaBienes.State) (i : ℕ)
        (fila : AppColegio.EntregaBienes.FilaBien),
      st.filas.find? (fun f => f.filaId = i) = some fila →
      fila.eliminarDisabled = true →
      AppColegio.EntregaBienes.clickEliminar st i = st) ∧
    (AppColegio.createEliminarButton.disabled = false ∧
      AppColegio.createEliminarButton.hasOnClick = true) ∧
    (∀ (st : AppColegio.OrdenState) (i : ℕ),
      AppColegio.getFila (AppColegio.eliminarFila st true i).articulos i =
        none ∧
      AppColegio.getFila (AppColegio.eliminarFila st false i).bienes i =
        none) := by
  refine ⟨?_, ?_, ⟨rfl, rfl⟩, ?_⟩
  · intro bien sug c
    exact ⟨rfl, rfl⟩
  · intro st i fila hfind hdis
    simp [AppColegio.EntregaBienes.clickEliminar, hfind, hdis]
  · intro st i
    constructor
    · unfold AppColegio.eliminarFila AppColegio.getFila
      simp only [if_true]
      by_cases h : i < st.articulos.length
      · rw [List.getElem?_set_self h]
      · rw [List.getElem?_eq_none (by simpa using Nat.le_of_not_lt h)]
    · unfold AppColegio.eliminarFila AppColegio.getFila
      simp only [Bool.false_eq_true, if_false]
      by_cases h : i < st.bienes.length
      · rw [List.getElem?_set_self h]
      · rw [List.getElem?_eq_none (by simpa using Nat.le_of_not_lt h)]

/-- C9 witness: the amended theorem at concrete inputs — the row loaded
from a solicitud has a disabled, handler-less delete button and clicking
it changes nothing, while deleting index 0 of the order state holding the
request-1 article removes that row. -/
theorem C9_eliminar_parent_witness :
    (AppColegio.EntregaBienes.mkFilaBien AppColegio.bien4 true (some 3)
        0).eliminarDisabled = true ∧
    AppColegio.EntregaBienes.clickEliminar AppColegio.stEntregaSol 0 =
      AppColegio.stEntregaSol ∧
    AppColegio.getFila
        (AppColegio.eliminarFila AppColegio.stRef5 true 0).articulos 0 =
      none := by
  refine ⟨(C9_eliminar_parent.1 AppColegio.bien4 (some 3) 0).1, ?_, ?_⟩
  · exact C9_eliminar_parent.2.1 AppColegio.stEntregaSol 0
      (AppColegio.EntregaBienes.mkFilaBien AppColegio.bien4 true (some 3) 0)
      (by decide) (by decide)
  · exact (C9_eliminar_parent.2.2.2 AppColegio.stRef5 0).1

/-! ## escapeHtml lemmas -/

theorem replaceAllChar_append (t : Char) (rep a b : List Char) :
    AppColegio.replaceAllChar t rep (a ++ b) =
      AppColegio.replaceAllChar t rep a ++ AppColegio.replaceAllChar t rep b := by
  induction a with
  | nil => rfl
  | cons c cs ih => simp [AppColegio.replaceAllChar, ih]

theorem escapeChain_append (a b : List Char) :
    AppColegio.escapeChain (a ++ b) =
      AppColegio.escapeChain a ++ AppColegio.escapeChain b := by
  simp [AppColegio.escapeChain, replaceAllChar_append]

theorem escapeChain_single (c : Char) :
    AppColegio.escapeChain [c] = AppColegio.escChar c := by
  by_cases h1 : c = '&'
  · subst h1; decide
  · by_cases h2 : c = '<'
    · subst h2; decide
    · by_cases h3 : c = '>'
      · subst h3; decide
      · by_cases h4 : c = AppColegio.quotChar
        · subst h4; decide
        · by_cases h5 : c = AppColegio.aposChar
          · subst h5; decide
          · simp [AppColegio.escapeChain, AppColegio.replaceAllChar,
              AppColegio.escChar, h1, h2, h3, h4, h5]

theorem escapeChain_cons (c : Char) (cs : List Char) :
    AppColegio.escapeChain (c :: cs) =
      AppColegio.escChar c ++ AppColegio.escapeChain cs := by
  rw [show c :: cs = [c] ++ cs from rfl, escapeChain_append,
    escapeChain_single]

theorem noRaw_append (a b : List Char) :
    AppColegio.noRawSpecials (a ++ b) =
      (AppColegio.noRawSpecials a && AppColegio.noRawSpecials b) :=
  List.all_append

theorem noRaw_escChar (c : Char) :
    AppColegio.noRawSpecials (AppColegio.escChar c) = true := by
  by_cases h1 : c = '&'
  · subst h1; decide
  · by_cases h2 : c = '<'
    · subst h2; decide
    · by_cases h3 : c = '>'
      · subst h3; decide
      · by_cases h4 : c = AppColegio.quotChar
        · subst h4; decide
        · by_cases h5 : c = AppColegio.aposChar
          · subst h5; decide
          · simp [AppColegio.escChar, AppColegio.noRawSpecials,
              h1, h2, h3, h4, h5]

theorem noRawSpecials_escapeChain (s : List Char) :
    AppColegio.noRawSpecials (AppColegio.escapeChain s) = true := by
  induction s with
  | nil => rfl
  | cons c cs ih =>
    rw [escapeChain_cons, noRaw_append, noRaw_escChar c, ih]
    rfl

theorem ampOk_cons_ne (c : Char) (rest : List Char) (hc : ¬(c = '&')) :
    AppColegio.ampOk (c :: rest) = AppColegio.ampOk rest := by
  simp [AppColegio.ampOk, hc]

theorem ampOk_entAmp_append (rest : List Char) :
    AppColegio.ampOk (AppColegio.entAmp ++ rest) = AppColegio.ampOk rest := by
  simp [AppColegio.ampOk, AppColegio.entAmp, AppColegio.entLt,
    AppColegio.entGt, AppColegio.entQuot, AppColegio.entApos,
    List.isPrefixOf]

theorem ampOk_entLt_append (rest : List Char) :
    AppColegio.ampOk (AppColegio.entLt ++ rest) = AppColegio.ampOk rest := by
  simp [AppColegio.ampOk, AppColegio.entAmp, AppColegio.entLt,
    AppColegio.entGt, AppColegio.entQuot, AppColegio.entApos,
    List.isPrefixOf]

theorem ampOk_entGt_append (rest : List Char) :
    AppColegio.ampOk (AppColegio.entGt ++ rest) = AppColegio.ampOk rest := by
  simp [AppColegio.ampOk, AppColegio.entAmp, AppColegio.entLt,
    AppColegio.entGt, AppColegio.entQuot, AppColegio.entApos,
    List.isPrefixOf]

theorem ampOk_entQuot_append (rest : List Char) :
    AppColegio.ampOk (AppColegio.entQuot ++ rest) = AppColegio.ampOk rest := by
  simp [AppColegio.ampOk, AppColegio.entAmp, AppColegio.entLt,
    AppColegio.entGt, AppColegio.entQuot, AppColegio.entApos,
    List.isPrefixOf]

theorem ampOk_entApos_append (rest : List Char) :
    AppColegio.ampOk (AppColegio.entApos ++ rest) = AppColegio.ampOk rest := by
  simp [AppColegio.ampOk, AppColegio.entAmp, AppColegio.entLt,
    AppColegio.entGt, AppColegio.entQuot, AppColegio.entApos,
    List.isPrefixOf]

theorem ampOk_escapeChain (s : List Char) :
    AppColegio.ampOk (AppColegio.escapeChain s) = true := by
  induction s with
  | nil => rfl
  | cons c cs ih =>
    rw [escapeChain_cons]
    by_cases h1 : c = '&'
    · subst h1
      rw [show AppColegio.escChar '&' = AppColegio.entAmp from rfl,
        ampOk_entAmp_append, ih]
    · by_cases h2 : c = '<'
      · subst h2
        rw [show AppColegio.escChar '<' = AppColegio.entLt from rfl,
          ampOk_entLt_append, ih]
      · by_cases h3 : c = '>'
        · subst h3
          rw [show AppColegio.escChar '>' = AppColegio.entGt from rfl,
            ampOk_entGt_append, ih]
        · by_cases h4 : c = AppColegio.quotChar
          · subst h4
            rw [show AppColegio.escChar AppColegio.quotChar =
                AppColegio.entQuot from rfl, ampOk_entQuot_append, ih]
          · by_cases h5 : c = AppColegio.aposChar
            · subst h5
              rw [show AppColegio.escChar AppColegio.aposChar =
                  AppColegio.entApos from rfl, ampOk_entApos_append, ih]
            · rw [show AppColegio.escChar c = [c] from by
                simp [AppColegio.escChar, h1, h2, h3, h4, h5]]
              rw [List.singleton_append, ampOk_cons_ne c _ h1, ih]

/-- C10: `escapeHtml` returns the empty string on every falsy input
(`null`, `undefined`, the empty string, `0`); for every input its output
contains none of the raw characters `<`, `>`, double quote or apostrophe,
and every ampersand in the output begins one of the five entities the
function emits. -/
theorem C10_escapeHtml :
    AppColegio.escapeHtml .jsNull = [] ∧
    AppColegio.escapeHtml .jsUndefined = [] ∧
    AppColegio.escapeHtml (.str []) = [] ∧
    AppColegio.escapeHtml (.num 0) = [] ∧
    (∀ v : AppColegio.JSVal,
      AppColegio.noRawSpecials (AppColegio.escapeHtml v) = true ∧
      AppColegio.ampOk (AppColegio.escapeHtml v) = true) := by
  refine ⟨rfl, rfl, rfl, rfl, ?_⟩
  intro v
  unfold AppColegio.escapeHtml
  by_cases h : AppColegio.jsFalsy v = true
  · rw [if_pos h]
    exact ⟨rfl, rfl⟩
  · rw [if_neg h]
    exact ⟨noRawSpecials_escapeChain _, ampOk_escapeChain _⟩
